import Mathlib

/-!
Shallow embedding of `src/shellsh/shellsh.py` (class `ShellSh`).

The session state is modelled by the structure `ShellSh` below; the pty,
the child process and the wall clock are external, so operations that
consult them take the relevant readings as explicit arguments:

* `typeenter` receives the microsecond clock reading `now`
  (Python: `marker_id = int(time.time() * 1000000)`);
* `wait` receives the entry time `start`, a per-iteration clock
  `clock : Nat → Nat` (the value of `time.time()` at iteration `k`'s
  timeout check) and a per-iteration buffer snapshot
  `bufAt : Nat → List String` (the contents of `output_buffer` at
  iteration `k`, which the background reader may extend concurrently);
* the background reader thread `_read_output` is modelled by `readerRun`
  over a list of read events (a decoded chunk, or an `OSError`).

Bytes written to the pty master are accumulated in `writtenInput`.
`last_output_time` is not tracked: it is consulted only by the blocking
idle-heuristic branch of `typeenter`, which affects no session state.
Python's `RuntimeError("Shell process has terminated")` (the spec's
`SessionTerminated`) and the `OSError` from `os.close` on an already
closed descriptor are the two error values of `ShellError`.
-/

/-- Session state of a `ShellSh` object. -/
structure ShellSh where
  name : String
  running : Bool
  blocking : Bool
  waitingMarker : Option String
  outputBuffer : List String
  masterOpen : Bool
  writtenInput : List String
  deriving Repr, DecidableEq

/-- Errors surfaced to the caller: `runtimeError` is Python's
`RuntimeError("Shell process has terminated")` (the spec's
`SessionTerminated`); `osError` is the `OSError` that `os.close`
raises on an already-closed descriptor. -/
inductive ShellError where
  | runtimeError
  | osError
  deriving Repr, DecidableEq

/-- Events seen by the background reader thread: a decoded chunk of
output, or an `OSError` from `select`/`os.read`. -/
inductive ReadEvent where
  | data (chunk : String)
  | readError
  deriving Repr, DecidableEq

/-- `__init__`: fresh session state after construction. -/
def ShellSh.init (name : String) : ShellSh :=
  { name := name
    running := true
    blocking := false
    waitingMarker := none
    outputBuffer := []
    masterOpen := true
    writtenInput := [] }

/-- Decimal representation of a natural number, low digit first
(structural in the fuel argument, mirroring core's `Nat.toDigitsCore`). -/
def natDigitsRevCore : Nat → Nat → List Char
  | 0, _ => []
  | fuel + 1, n =>
    if n < 10 then [Nat.digitChar n]
    else Nat.digitChar (n % 10) :: natDigitsRevCore fuel (n / 10)

/-- Decimal representation of a natural number, as produced by Python's
string formatting of the integer `marker_id`. -/
def natRepr (n : Nat) : String :=
  (natDigitsRevCore (n + 1) n).reverse.asString

/-- The marker string `f'SHELLSH_MARKER_{marker_id}_DONE'` generated by
`typeenter`, where `markerId = int(time.time() * 1000000)`. -/
def mkMarker (markerId : Nat) : String :=
  "SHELLSH_MARKER_" ++ natRepr markerId ++ "_DONE"

/-- `typeenter(line)`: raises if `not self.running`; otherwise writes the
line, generates the marker from the clock reading `now`, records it in
`_waiting_marker` (overwriting any previous value) and writes the
`echo '<marker>'` line.  The blocking-mode branch only sleeps and polls
`last_output_time`; it mutates no session state, so it does not appear
here. -/
def typeenter (s : ShellSh) (line : String) (now : Nat) :
    Except ShellError ShellSh :=
  if s.running = false then .error .runtimeError
  else
    let marker := mkMarker now
    .ok { s with
      waitingMarker := some marker
      writtenInput := s.writtenInput ++
        [line ++ "\n", "echo \x27" ++ marker ++ "\x27\n"] }

/-- `flush()`: returns `""` if the buffer is empty; otherwise joins all
chunks and clears the buffer. -/
def flush (s : ShellSh) : String × ShellSh :=
  if s.outputBuffer = [] then ("", s)
  else (String.join s.outputBuffer, { s with outputBuffer := [] })

/-- The anchored-marker test shared by `wait` and `is_alive`:
`f'\n{marker_text}' in full_output or full_output.startswith(marker_text)`. -/
def markerFound (marker full : String) : Bool :=
  decide (('\n' :: marker.data) <:+: full.data) ||
    marker.data.isPrefixOf full.data

/-- `is_alive()`: `False` if not running or no marker pending; otherwise
checks the anchored-marker condition on the joined buffer, clearing the
marker and returning `False` on success, else `True`. -/
def is_alive (s : ShellSh) : Bool × ShellSh :=
  if s.running = false then (false, s)
  else
    match s.waitingMarker with
    | none => (false, s)
    | some m =>
      if markerFound m (String.join s.outputBuffer) then
        (false, { s with waitingMarker := none })
      else (true, s)

/-- `stop()`: raises if not running; otherwise writes the Ctrl-C byte to
the pty master. -/
def stop (s : ShellSh) : Except ShellError ShellSh :=
  if s.running = false then .error .runtimeError
  else .ok { s with writtenInput := s.writtenInput ++ ["\x03"] }

/-- `close()`: sets `running = False`, terminates/kills the child
(external effect), then calls `os.close(self.master)` — which raises
`OSError` when the master descriptor was already closed by a previous
`close()`.  Returns the state after the call together with the error,
if any (the `running` flag is already `false` when the error is
raised). -/
def close (s : ShellSh) : ShellSh × Option ShellError :=
  let s1 := { s with running := false }
  if s1.masterOpen then ({ s1 with masterOpen := false }, none)
  else (s1, some .osError)

/-- One iteration of `_read_output`'s body: append a decoded chunk under
the lock (continue), or break out of the loop on `OSError` (stop),
changing no session state. -/
def readerStep (s : ShellSh) (e : ReadEvent) : ShellSh × Bool :=
  match e with
  | .data c => ({ s with outputBuffer := s.outputBuffer ++ [c] }, true)
  | .readError => (s, false)

/-- The `_read_output` loop: `while self.running`, process events until
the running flag is cleared, the event list is exhausted, or an
`OSError` breaks the loop. -/
def readerRun (s : ShellSh) : List ReadEvent → ShellSh
  | [] => s
  | e :: es =>
    if s.running = false then s
    else
      match readerStep s e with
      | (s2, true) => readerRun s2 es
      | (s2, false) => s2

/-- The timeout test at the top of `wait`'s loop:
`seconds is not None and (time.time() - start_time) >= seconds`. -/
def timedOut (seconds : Option Nat) (start t : Nat) : Bool :=
  match seconds with
  | none => false
  | some d => decide (start + d ≤ t)

/-- The outcome of a `wait` call. -/
inductive WaitOutcome where
  | noMarker
  | timeout (k : Nat)
  | completed (k : Nat)
  | diverged
  deriving Repr, DecidableEq

/-- The `while True` loop of `wait`, iteration index `k`: check the
timeout first, then the anchored-marker condition on the buffer
snapshot, else sleep and loop.  `fuel` makes the recursion structural;
`none` means the fuel ran out (only reachable when no finite timeout
bounds the loop).  The returned `Bool` records whether the marker was
observed (`true`) or the timeout fired (`false`); the `Nat` is the exit
iteration. -/
def waitLoop (marker : String) (seconds : Option Nat) (start : Nat)
    (clock : Nat → Nat) (bufAt : Nat → List String) :
    Nat → Nat → Option (Bool × Nat)
  | 0, _ => none
  | fuel + 1, k =>
    if timedOut seconds start (clock k) then some (false, k)
    else if markerFound marker (String.join (bufAt k)) then some (true, k)
    else waitLoop marker seconds start clock bufAt fuel (k + 1)

/-- `wait(seconds)`: raises if not running; returns immediately when no
marker is pending; otherwise runs the polling loop, clearing
`_waiting_marker` exactly when the loop observes the marker. -/
def wait (s : ShellSh) (seconds : Option Nat) (start : Nat)
    (clock : Nat → Nat) (bufAt : Nat → List String) (fuel : Nat) :
    Except ShellError (ShellSh × WaitOutcome) :=
  if s.running = false then .error .runtimeError
  else
    match s.waitingMarker with
    | none => .ok (s, .noMarker)
    | some m =>
      match waitLoop m seconds start clock bufAt fuel 0 with
      | some (true, k) => .ok ({ s with waitingMarker := none }, .completed k)
      | some (false, k) => .ok (s, .timeout k)
      | none => .ok (s, .diverged)

/-- The marker string `m` occurs in the character list `full` at
position `i`, anchored: either at the very start of the stream or
immediately after a newline character. -/
def occursAnchoredAt (m full : List Char) (i : Nat) : Prop :=
  (full.drop i).take m.length = m ∧ (i = 0 ∨ full[i - 1]? = some '\n')

/-- Numeric value of a decimal digit character. -/
def digitVal (c : Char) : Nat := c.toNat - 48

/-- Value of a low-digit-first digit list. -/
def valRev : List Char → Nat
  | [] => 0
  | c :: cs => digitVal c + 10 * valRev cs

/-- A freshly constructed session, used as concrete input below. -/
def initState : ShellSh := ShellSh.init "demo"

/-- Session with the reader having hit `OSError` (child exit detected). -/
def c2State : ShellSh := readerRun initState [ReadEvent.readError]

/-- State after the first of two same-microsecond submissions. -/
def c3State1 : ShellSh := (typeenter initState "echo a" 1000).toOption.getD initState

/-- State after the second of two same-microsecond submissions. -/
def c3State2 : ShellSh := (typeenter c3State1 "echo b" 1000).toOption.getD initState

/-- State after the first of two distinct-microsecond submissions. -/
def c3wState1 : ShellSh := (typeenter initState "echo a" 1).toOption.getD initState

/-- State after the second of two distinct-microsecond submissions. -/
def c3wState2 : ShellSh := (typeenter c3wState1 "echo b" 2).toOption.getD initState

/-- Session with a pending marker whose anchored occurrence is buffered. -/
def c4State : ShellSh :=
  { ShellSh.init "w4" with
    waitingMarker := some (mkMarker 5)
    outputBuffer := ["ab\n", mkMarker 5 ++ "\n"] }

/-- Session with a pending marker and non-trivial buffered output. -/
def c1State : ShellSh :=
  { ShellSh.init "w1" with
    waitingMarker := some (mkMarker 7)
    outputBuffer := ["x\n" ++ mkMarker 7 ++ "\nrest"] }

/-- Session with a pending marker and an empty buffer. -/
def c5State : ShellSh :=
  { ShellSh.init "w5" with waitingMarker := some (mkMarker 11) }

/-- Session with a pending marker and an empty buffer. -/
def c6State : ShellSh :=
  { ShellSh.init "w6" with waitingMarker := some (mkMarker 3) }

/-- Session with a still-unobserved pending marker. -/
def c7State : ShellSh :=
  { ShellSh.init "c7" with waitingMarker := some (mkMarker 1) }

/-- `c7State` after a second `typeenter` call. -/
def c7State2 : ShellSh := (typeenter c7State "echo b" 2).toOption.getD c7State

/-- Session with a pending marker, for the clearing-discipline witness. -/
def c7wState : ShellSh :=
  { ShellSh.init "w7" with waitingMarker := some (mkMarker 4) }

/-- Session with a pending marker already present in the buffer. -/
def c10State : ShellSh :=
  { ShellSh.init "w10" with waitingMarker := some (mkMarker 9) }

-- Sanity checks for the decimal representation.
example : natRepr 0 = "0" := rfl
example : natRepr 1234567890 = "1234567890" := rfl
example : mkMarker 42 = "SHELLSH_MARKER_42_DONE" := rfl

/-! ### Characterization of the anchored-marker test -/

/-- The boolean test used by `wait` and `is_alive` holds exactly when the
marker occurs somewhere in the stream anchored at the start or right
after a newline. -/
theorem markerFound_iff_anchored (m full : String) :
    markerFound m full = true ↔ ∃ i, occursAnchoredAt m.data full.data i := by
  unfold markerFound
  rw [Bool.or_eq_true, decide_eq_true_eq]
  constructor
  · rintro (⟨spre, t, hst⟩ | hpre)
    · refine ⟨spre.length + 1, ?_, Or.inr ?_⟩
      · have hfull : full.data = (spre ++ ['\n']) ++ (m.data ++ t) := by
          rw [← hst]; simp
        have hlen : spre.length + 1 = (spre ++ ['\n']).length := by simp
        rw [hfull, hlen, List.drop_left, List.take_left]
      · have hfull : full.data = spre ++ ('\n' :: (m.data ++ t)) := by
          rw [← hst]; simp
        rw [hfull, Nat.add_sub_cancel,
          List.getElem?_append_right (Nat.le_refl _)]
        simp
    · refine ⟨0, ?_, Or.inl rfl⟩
      rw [List.drop_zero]
      exact (List.prefix_iff_eq_take.mp
        ((List.isPrefixOf_iff_prefix).mp hpre)).symm
  · rintro ⟨i, htake, hanch⟩
    match i, hanch with
    | 0, _ =>
      right
      rw [List.isPrefixOf_iff_prefix, List.prefix_iff_eq_take]
      rw [List.drop_zero] at htake
      exact htake.symm
    | j + 1, Or.inr hnl =>
      left
      rw [Nat.add_sub_cancel] at hnl
      obtain ⟨hj, hget⟩ := List.getElem?_eq_some.mp hnl
      refine ⟨full.data.take j, (full.data.drop (j + 1)).drop m.data.length, ?_⟩
      have h3 : full.data.drop (j + 1) =
          m.data ++ (full.data.drop (j + 1)).drop m.data.length := by
        conv_lhs =>
          rw [← List.take_append_drop m.data.length (full.data.drop (j + 1))]
        rw [htake]
      calc full.data.take j ++ ('\n' :: m.data) ++
            (full.data.drop (j + 1)).drop m.data.length
          = full.data.take j ++
            ('\n' :: (m.data ++ (full.data.drop (j + 1)).drop m.data.length)) := by
            simp
        _ = full.data.take j ++ ('\n' :: full.data.drop (j + 1)) := by rw [← h3]
        _ = full.data.take j ++ full.data.drop j := by
            rw [List.drop_eq_getElem_cons hj, hget]
        _ = full.data := List.take_append_drop j full.data

/-! ### Injectivity of the generated marker strings -/

theorem digitVal_digitChar {n : Nat} (h : n < 10) :
    digitVal (Nat.digitChar n) = n := by
  interval_cases n <;> rfl

theorem valRev_natDigitsRevCore :
    ∀ fuel n, n < 10 ^ fuel → valRev (natDigitsRevCore fuel n) = n := by
  intro fuel
  induction fuel with
  | zero =>
    intro n h
    simp only [pow_zero, Nat.lt_one_iff] at h
    subst h
    rfl
  | succ f ih =>
    intro n h
    unfold natDigitsRevCore
    by_cases h10 : n < 10
    · simp only [h10, if_true, valRev, digitVal_digitChar h10,
        Nat.mul_zero, Nat.add_zero]
    · simp only [h10, if_false, valRev,
        digitVal_digitChar (Nat.mod_lt n (by norm_num))]
      rw [ih (n / 10) ?_]
      · exact Nat.mod_add_div n 10
      · rw [Nat.div_lt_iff_lt_mul (by norm_num : 0 < 10)]
        calc n < 10 ^ (f + 1) := h
          _ = 10 ^ f * 10 := pow_succ 10 f

theorem lt_ten_pow_succ (n : Nat) : n < 10 ^ (n + 1) :=
  calc n < 2 ^ n := Nat.lt_two_pow n
    _ ≤ 10 ^ n := Nat.pow_le_pow_left (by norm_num) n
    _ ≤ 10 ^ (n + 1) := Nat.pow_le_pow_right (by norm_num) (Nat.le_succ n)

theorem natRepr_injective {a b : Nat} (h : natRepr a = natRepr b) : a = b := by
  have hd : (natDigitsRevCore (a + 1) a).reverse =
      (natDigitsRevCore (b + 1) b).reverse := congrArg String.data h
  have hcore := List.reverse_inj.mp hd
  have ha := valRev_natDigitsRevCore (a + 1) a (lt_ten_pow_succ a)
  have hb := valRev_natDigitsRevCore (b + 1) b (lt_ten_pow_succ b)
  rw [← ha, ← hb, hcore]

theorem mkMarker_injective {a b : Nat} (h : mkMarker a = mkMarker b) :
    a = b := by
  apply natRepr_injective
  have hd := congrArg String.data h
  simp only [mkMarker, String.data_append] at hd
  rw [List.append_assoc, List.append_assoc] at hd
  have h2 := List.append_cancel_left hd
  have h3 := List.append_cancel_right h2
  exact String.ext h3

/-! ### Lemmas about the polling loop of `wait` -/

theorem waitLoop_index_ge (marker : String) (seconds : Option Nat)
    (start : Nat) (clock : Nat → Nat) (bufAt : Nat → List String) :
    ∀ fuel k b j,
      waitLoop marker seconds start clock bufAt fuel k = some (b, j) →
      k ≤ j := by
  intro fuel
  induction fuel with
  | zero => intro k b j h; simp [waitLoop] at h
  | succ f ih =>
    intro k b j h
    unfold waitLoop at h
    split at h
    · cases h; exact Nat.le_refl _
    · split at h
      · cases h; exact Nat.le_refl _
      · exact Nat.le_of_succ_le (ih (k + 1) b j h)

theorem waitLoop_exit (marker : String) (seconds : Option Nat)
    (start : Nat) (clock : Nat → Nat) (bufAt : Nat → List String) :
    ∀ fuel k b j,
      waitLoop marker seconds start clock bufAt fuel k = some (b, j) →
      j = k ∨ (k < j ∧ timedOut seconds start (clock (j - 1)) = false ∧
        markerFound marker (String.join (bufAt (j - 1))) = false) := by
  intro fuel
  induction fuel with
  | zero => intro k b j h; simp [waitLoop] at h
  | succ f ih =>
    intro k b j h
    unfold waitLoop at h
    split at h
    · cases h; exact Or.inl rfl
    · rename_i hto
      split at h
      · cases h; exact Or.inl rfl
      · rename_i hmf
        rcases ih (k + 1) b j h with h1 | ⟨hlt, ht, hm⟩
        · subst h1
          exact Or.inr ⟨Nat.lt_succ_self k, by
            rw [Nat.add_sub_cancel]
            exact ⟨Bool.not_eq_true _ ▸ (by simpa using hto),
              Bool.not_eq_true _ ▸ (by simpa using hmf)⟩⟩
        · exact Or.inr ⟨Nat.lt_of_succ_lt hlt, ht, hm⟩

theorem waitLoop_terminates (marker : String) (d start : Nat)
    (clock : Nat → Nat) (bufAt : Nat → List String) :
    ∀ fuel k, timedOut (some d) start (clock (k + fuel)) = true →
      ∃ b j, waitLoop marker (some d) start clock bufAt (fuel + 1) k =
        some (b, j) := by
  intro fuel
  induction fuel with
  | zero =>
    intro k h
    refine ⟨false, k, ?_⟩
    unfold waitLoop
    rw [Nat.add_zero] at h
    simp [h]
  | succ f ih =>
    intro k h
    unfold waitLoop
    split
    · exact ⟨false, k, rfl⟩
    · split
      · exact ⟨true, k, rfl⟩
      · exact ih (k + 1) (by rw [show k + 1 + f = k + (f + 1) by omega]; exact h)

theorem waitLoop_found (marker : String) (seconds : Option Nat)
    (start : Nat) (clock : Nat → Nat) (bufAt : Nat → List String) :
    ∀ fuel k j,
      waitLoop marker seconds start clock bufAt fuel k = some (true, j) →
      markerFound marker (String.join (bufAt j)) = true ∧
        timedOut seconds start (clock j) = false := by
  intro fuel
  induction fuel with
  | zero => intro k j h; simp [waitLoop] at h
  | succ f ih =>
    intro k j h
    unfold waitLoop at h
    split at h
    · exact absurd (congrArg (fun r => r.map Prod.fst) h) (by simp)
    · rename_i hto
      split at h
      · rename_i hmf
        cases h
        exact ⟨hmf, by simpa using hto⟩
      · exact ih (k + 1) j h

theorem clock_lower_bound (clock : Nat → Nat)
    (hmono : ∀ k, clock k + 1 ≤ clock (k + 1)) :
    ∀ k, clock 0 + k ≤ clock k := by
  intro k
  induction k with
  | zero => simp
  | succ n ih =>
    calc clock 0 + (n + 1) = (clock 0 + n) + 1 := by omega
      _ ≤ clock n + 1 := by omega
      _ ≤ clock (n + 1) := hmono n

/-! ### Inversion lemmas for the operations -/

theorem typeenter_ok_marker (s s2 : ShellSh) (l : String) (t : Nat)
    (h : typeenter s l t = .ok s2) :
    s2.waitingMarker = some (mkMarker t) := by
  unfold typeenter at h
  split at h
  · simp at h
  · cases h; rfl

theorem readerRun_running (s : ShellSh) (es : List ReadEvent) :
    (readerRun s es).running = s.running := by
  induction es generalizing s with
  | nil => rfl
  | cons e es ih =>
    unfold readerRun
    split
    · rfl
    · cases e with
      | data c => exact ih _
      | readError => rfl

theorem wait_no_error (s : ShellSh) (sec : Option Nat) (st : Nat)
    (ck : Nat → Nat) (bA : Nat → List String) (fuel : Nat)
    (hr : s.running = true) (e : ShellError) :
    wait s sec st ck bA fuel ≠ .error e := by
  intro h
  unfold wait at h
  rw [hr, if_neg (by simp)] at h
  rcases hm : s.waitingMarker with _ | m <;> rw [hm] at h
  · simp at h
  · rcases hlv : waitLoop m sec st ck bA fuel 0 with _ | ⟨b, k⟩
    · simp [hlv] at h
    · cases b <;> simp [hlv] at h

theorem wait_timeout_inv (s s2 : ShellSh) (sec : Option Nat) (st : Nat)
    (ck : Nat → Nat) (bA : Nat → List String) (fuel j : Nat)
    (h : wait s sec st ck bA fuel = .ok (s2, .timeout j)) :
    s2 = s ∧ ∃ m, s.waitingMarker = some m ∧
      waitLoop m sec st ck bA fuel 0 = some (false, j) := by
  unfold wait at h
  split at h
  · simp at h
  · split at h
    · simp at h
    · rename_i m hm
      split at h
      · simp at h
      · rename_i k hlv
        simp only [Except.ok.injEq, Prod.mk.injEq,
          WaitOutcome.timeout.injEq] at h
        obtain ⟨h1, h2⟩ := h
        subst h2
        exact ⟨h1.symm, m, hm, hlv⟩
      · simp at h

theorem wait_completed_inv (s s2 : ShellSh) (sec : Option Nat) (st : Nat)
    (ck : Nat → Nat) (bA : Nat → List String) (fuel j : Nat)
    (h : wait s sec st ck bA fuel = .ok (s2, .completed j)) :
    s2 = { s with waitingMarker := none } ∧ ∃ m, s.waitingMarker = some m ∧
      waitLoop m sec st ck bA fuel 0 = some (true, j) := by
  unfold wait at h
  split at h
  · simp at h
  · split at h
    · simp at h
    · rename_i m hm
      split at h
      · rename_i k hlv
        simp only [Except.ok.injEq, Prod.mk.injEq,
          WaitOutcome.completed.injEq] at h
        obtain ⟨h1, h2⟩ := h
        subst h2
        exact ⟨h1.symm, m, hm, hlv⟩
      · simp at h
      · simp at h

/-! ### Claim theorems -/

/-- C9: `flush` returns the concatenation of all buffered chunks and
leaves the buffer empty; a second consecutive `flush` (with no
intervening reader append) therefore yields the empty string, flushing
an empty buffer yields the empty string (`String.join [] = ""`), flush
is total (never fails) and leaves the pending marker unchanged. -/
theorem flush_drains_buffer_and_preserves_marker (s : ShellSh) :
    (flush s).1 = String.join s.outputBuffer ∧
    (flush s).2.outputBuffer = [] ∧
    (flush s).2.waitingMarker = s.waitingMarker ∧
    (flush ((flush s).2)).1 = "" ∧
    (flush { s with outputBuffer := [] }).1 = "" := by
  unfold flush
  by_cases h : s.outputBuffer = [] <;> simp [h, String.join]

/-- C4: `is_alive` returns `false` without touching the buffer (or the
marker) whenever the session is closed or no marker is pending; with a
pending marker it returns `false` and clears the marker exactly when an
anchored occurrence of the marker is present in the unflushed buffer,
and returns `true` leaving the state untouched otherwise. -/
theorem is_alive_case_analysis (s : ShellSh) (m : String) :
    (s.running = false → is_alive s = (false, s)) ∧
    (s.waitingMarker = none → is_alive s = (false, s)) ∧
    (s.running = true → s.waitingMarker = some m →
      (((∃ i, occursAnchoredAt m.data (String.join s.outputBuffer).data i) →
          is_alive s = (false, { s with waitingMarker := none })) ∧
        ((¬ ∃ i, occursAnchoredAt m.data (String.join s.outputBuffer).data i) →
          is_alive s = (true, s)))) := by
  refine ⟨?_, ?_, ?_⟩
  · intro h; simp [is_alive, h]
  · intro h; simp [is_alive, h]
  · intro hr hm
    constructor
    · intro hex
      have hmf : markerFound m (String.join s.outputBuffer) = true :=
        (markerFound_iff_anchored m (String.join s.outputBuffer)).mpr hex
      simp [is_alive, hr, hm, hmf]
    · intro hnex
      have hmf : markerFound m (String.join s.outputBuffer) = false :=
        Bool.eq_false_iff.mpr fun hmf =>
          hnex ((markerFound_iff_anchored m (String.join s.outputBuffer)).mp hmf)
      simp [is_alive, hr, hm, hmf]

/-- C4 witness: on a session with its pending marker anchored after a
newline in the buffer, `is_alive` returns `false` and clears the
marker. -/
theorem is_alive_case_analysis_witness :
    c4State.running = true ∧ c4State.waitingMarker = some (mkMarker 5) ∧
    is_alive c4State = (false, { c4State with waitingMarker := none }) :=
  ⟨rfl, rfl, ((is_alive_case_analysis c4State (mkMarker 5)).2.2 rfl rfl).1
    ⟨3, ⟨rfl, Or.inr rfl⟩⟩⟩

/-- C1: the completion test of `wait` and `is_alive` fires exactly when
the marker occurs in the buffered output anchored at the start of the
stream or immediately after a newline; a strictly-interior occurrence
(not at the start and not preceded by a newline) never triggers it.
Clause 1 characterizes the shared boolean test, clause 2 `is_alive`'s
recognition-and-clearing, clause 3 a non-timed-out iteration of
`wait`'s loop. -/
theorem marker_recognized_iff_anchored (m full : String) (s : ShellSh)
    (sec : Option Nat) (st : Nat) (ck : Nat → Nat) (bA : Nat → List String)
    (fuel k : Nat) :
    (markerFound m full = true ↔ ∃ i, occursAnchoredAt m.data full.data i) ∧
    (s.running = true → s.waitingMarker = some m →
      (((is_alive s).1 = false ∧ (is_alive s).2.waitingMarker = none) ↔
        ∃ i, occursAnchoredAt m.data (String.join s.outputBuffer).data i)) ∧
    (timedOut sec st (ck k) = false →
      (waitLoop m sec st ck bA (fuel + 1) k = some (true, k) ↔
        ∃ i, occursAnchoredAt m.data (String.join (bA k)).data i)) := by
  refine ⟨markerFound_iff_anchored m full, ?_, ?_⟩
  · intro hr hm
    rw [← markerFound_iff_anchored]
    cases hmf : markerFound m (String.join s.outputBuffer) with
    | true => simp [is_alive, hr, hm, hmf]
    | false => simp [is_alive, hr, hm, hmf]
  · intro hto
    rw [← markerFound_iff_anchored]
    constructor
    · intro h
      exact (waitLoop_found m sec st ck bA (fuel + 1) k k h).1
    · intro hmf
      unfold waitLoop
      simp [hto, hmf]

/-- C1 witness: a session whose pending marker sits in the buffer right
after a newline; `is_alive` recognizes and clears it, in agreement with
the anchored-occurrence characterization. -/
theorem marker_recognized_iff_anchored_witness :
    c1State.running = true ∧ c1State.waitingMarker = some (mkMarker 7) ∧
    (((is_alive c1State).1 = false ∧
        (is_alive c1State).2.waitingMarker = none) ↔
      ∃ i, occursAnchoredAt (mkMarker 7).data
        (String.join c1State.outputBuffer).data i) :=
  ⟨rfl, rfl, (marker_recognized_iff_anchored (mkMarker 7) "" c1State
    none 0 (fun _ => 0) (fun _ => []) 0 0).2.1 rfl rfl⟩

/-- C5: with a finite timeout `d`, `wait` terminates and returns at a
loop iteration whose clock reading is at most `start + d + slack`,
where `slack` bounds the time one poll iteration takes — regardless of
whether the marker ever appears; and with no pending marker it returns
immediately with outcome `noMarker`.  The clock hypotheses say time
strictly advances each iteration and by at most `slack`, and the first
check happens within one interval of entry. -/
theorem wait_bounded_by_timeout (s : ShellSh) (d start slack : Nat)
    (ck : Nat → Nat) (bA : Nat → List String)
    (hr : s.running = true)
    (hstart : start ≤ ck 0) (h0 : ck 0 ≤ start + slack)
    (hmono : ∀ k, ck k + 1 ≤ ck (k + 1))
    (hslack : ∀ k, ck (k + 1) ≤ ck k + slack) :
    (s.waitingMarker = none →
      wait s (some d) start ck bA (d + 1) = .ok (s, .noMarker)) ∧
    (∀ m, s.waitingMarker = some m →
      ∃ s2 o j, wait s (some d) start ck bA (d + 1) = .ok (s2, o) ∧
        (o = WaitOutcome.completed j ∨ o = WaitOutcome.timeout j) ∧
        ck j ≤ start + d + slack) := by
  constructor
  · intro hm
    unfold wait
    rw [hr, if_neg (by simp), hm]
  · intro m hm
    have hterm := waitLoop_terminates m d start ck bA d 0 ?_
    · obtain ⟨b, j, hloop⟩ := hterm
      have hexit := waitLoop_exit m (some d) start ck bA (d + 1) 0 b j hloop
      have hbound : ck j ≤ start + d + slack := by
        rcases hexit with h1 | ⟨hlt, hto, _⟩
        · subst h1; omega
        · have hlate : ¬ (start + d ≤ ck (j - 1)) := by
            simpa [timedOut] using hto
          have hs := hslack (j - 1)
          rw [show j - 1 + 1 = j by omega] at hs
          omega
      cases b with
      | true =>
        refine ⟨{ s with waitingMarker := none }, .completed j, j, ?_,
          Or.inl rfl, hbound⟩
        unfold wait
        rw [hr, if_neg (by simp), hm]
        simp [hloop]
      | false =>
        refine ⟨s, .timeout j, j, ?_, Or.inr rfl, hbound⟩
        unfold wait
        rw [hr, if_neg (by simp), hm]
        simp [hloop]
    · have hlb := clock_lower_bound ck hmono d
      simp only [timedOut, Nat.zero_add, decide_eq_true_eq]
      omega

/-- C5 witness: with timeout 2, unit clock steps and an empty buffer,
`wait` on a session with a pending marker returns by the clock bound. -/
theorem wait_bounded_by_timeout_witness :
    c5State.running = true ∧ c5State.waitingMarker = some (mkMarker 11) ∧
    ∃ s2 o j, wait c5State (some 2) 0 (fun k => k) (fun _ => []) 3 =
        .ok (s2, o) ∧
      (o = WaitOutcome.completed j ∨ o = WaitOutcome.timeout j) ∧
      (fun k => k) j ≤ 0 + 2 + 1 :=
  ⟨rfl, rfl, (wait_bounded_by_timeout c5State 2 0 1 (fun k => k)
      (fun _ => []) rfl (Nat.le_refl 0) (Nat.le_succ 0)
      (fun _ => Nat.le_refl _) (fun _ => Nat.le_refl _)).2
    (mkMarker 11) rfl⟩

/-- C6: when `wait` returns with a timeout outcome, the session state is
unchanged: the pending marker is left set (available to a later
`wait`/`is_alive`) and the output buffer is not drained. -/
theorem wait_timeout_leaves_state_unchanged (s s2 : ShellSh)
    (sec : Option Nat) (st : Nat) (ck : Nat → Nat) (bA : Nat → List String)
    (fuel j : Nat)
    (h : wait s sec st ck bA fuel = .ok (s2, .timeout j)) :
    s2 = s ∧ s2.waitingMarker = s.waitingMarker ∧
      s2.outputBuffer = s.outputBuffer ∧ s2.waitingMarker ≠ none := by
  obtain ⟨hs, m, hm, _⟩ := wait_timeout_inv s s2 sec st ck bA fuel j h
  subst hs
  exact ⟨rfl, rfl, rfl, by simp [hm]⟩

/-- C6 witness: a concrete `wait` call that times out at iteration 0
leaves the session exactly as it was. -/
theorem wait_timeout_leaves_state_unchanged_witness :
    wait c6State (some 0) 0 (fun _ => 0) (fun _ => []) 1 =
      Except.ok (c6State, WaitOutcome.timeout 0) ∧
    c6State = c6State ∧ c6State.waitingMarker ≠ none :=
  ⟨rfl, (wait_timeout_leaves_state_unchanged c6State c6State (some 0) 0
      (fun _ => 0) (fun _ => []) 1 0 rfl).1,
    (wait_timeout_leaves_state_unchanged c6State c6State (some 0) 0
      (fun _ => 0) (fun _ => []) 1 0 rfl).2.2.2⟩

/-- C10: because the timeout test precedes the marker test on every
iteration, a `wait` whose timeout has already elapsed at the first
check returns a timeout at iteration 0 without clearing the pending
marker — even when the anchored marker occurrence is already present in
the buffer snapshot. -/
theorem wait_elapsed_timeout_skips_marker_check (s : ShellSh) (m : String)
    (d start : Nat) (ck : Nat → Nat) (bA : Nat → List String) (fuel : Nat)
    (hr : s.running = true) (hm : s.waitingMarker = some m)
    (helapsed : start + d ≤ ck 0)
    (_hfound : markerFound m (String.join (bA 0)) = true) :
    wait s (some d) start ck bA (fuel + 1) = .ok (s, .timeout 0) ∧
      s.waitingMarker = some m := by
  refine ⟨?_, hm⟩
  have hto : timedOut (some d) start (ck 0) = true := by
    simp [timedOut, helapsed]
  unfold wait
  rw [hr, if_neg (by simp), hm]
  simp [waitLoop, hto]

/-- C10 witness: with timeout 0 and the marker already anchored in the
buffer snapshot, `wait` returns a timeout at iteration 0 and the marker
stays pending. -/
theorem wait_elapsed_timeout_skips_marker_check_witness :
    c10State.running = true ∧ c10State.waitingMarker = some (mkMarker 9) ∧
    markerFound (mkMarker 9)
      (String.join ["\n" ++ mkMarker 9 ++ "\n"]) = true ∧
    wait c10State (some 0) 0 (fun _ => 0)
      (fun _ => ["\n" ++ mkMarker 9 ++ "\n"]) 1 =
      .ok (c10State, .timeout 0) :=
  ⟨rfl, rfl, by decide,
    (wait_elapsed_timeout_skips_marker_check c10State (mkMarker 9) 0 0
      (fun _ => 0) (fun _ => ["\n" ++ mkMarker 9 ++ "\n"]) 0 rfl rfl
      (Nat.le_refl 0) (by decide)).1⟩

/-- C2 counterexample: the reader's `except OSError: break` does not set
the running flag, so after the reader has detected the child's exit a
`typeenter` call still succeeds instead of raising — refuting the claim
that operations raise after the reader detects the child exited. -/
theorem reader_exit_does_not_block_submit :
    c2State.running = true ∧
    typeenter c2State "ls" 7 =
      .ok { c2State with
        waitingMarker := some (mkMarker 7)
        writtenInput := ["ls\n", "echo \x27" ++ mkMarker 7 ++ "\x27\n"] } :=
  ⟨rfl, rfl⟩

/-- C2 amended: `typeenter`, `wait` and `stop` raise `SessionTerminated`
(Python `RuntimeError`) exactly when the running flag is false; the flag
is cleared only by `close` — the reader's detection of the child's exit
leaves it set, so operations invoked after that detection do not
raise. -/
theorem ops_raise_iff_not_running (s : ShellSh) (l : String) (t : Nat)
    (sec : Option Nat) (st : Nat) (ck : Nat → Nat) (bA : Nat → List String)
    (fuel : Nat) (es : List ReadEvent) :
    ((∃ e, typeenter s l t = .error e) ↔ s.running = false) ∧
    ((∃ e, stop s = .error e) ↔ s.running = false) ∧
    ((∃ e, wait s sec st ck bA fuel = .error e) ↔ s.running = false) ∧
    (readerRun s es).running = s.running ∧
    (close s).1.running = false := by
  refine ⟨?_, ?_, ?_, readerRun_running s es, ?_⟩
  · cases hr : s.running <;> simp [typeenter, hr]
  · cases hr : s.running <;> simp [stop, hr]
  · cases hr : s.running with
    | false =>
      simp only [hr, iff_true]
      exact ⟨.runtimeError, by simp [wait, hr]⟩
    | true =>
      simp only [hr, Bool.true_eq_false, iff_false]
      rintro ⟨e, he⟩
      exact wait_no_error s sec st ck bA fuel hr e he
  · by_cases hmo : s.masterOpen = true <;> simp [close, hmo]

/-- C2 witness: a closed session rejects `typeenter`, while a running
session (even one whose reader already hit `OSError`) does not. -/
theorem ops_raise_iff_not_running_witness :
    ((∃ e, typeenter (close initState).1 "ls" 3 = .error e) ↔
      (close initState).1.running = false) ∧
    (readerRun (close initState).1 [ReadEvent.readError]).running =
      (close initState).1.running :=
  ⟨(ops_raise_iff_not_running (close initState).1 "ls" 3 none 0
      (fun _ => 0) (fun _ => []) 0 [ReadEvent.readError]).1,
    (ops_raise_iff_not_running (close initState).1 "ls" 3 none 0
      (fun _ => 0) (fun _ => []) 0 [ReadEvent.readError]).2.2.2.1⟩

/-- C3 counterexample: two `typeenter` calls in the same session that
read the same microsecond clock value (`int(time.time() * 1000000)`)
generate identical marker strings, refuting unconditional marker
uniqueness. -/
theorem same_clock_submissions_collide :
    typeenter initState "echo a" 1000 = .ok c3State1 ∧
    typeenter c3State1 "echo b" 1000 = .ok c3State2 ∧
    c3State1.waitingMarker = some (mkMarker 1000) ∧
    c3State2.waitingMarker = some (mkMarker 1000) :=
  ⟨rfl, rfl, rfl, rfl⟩

/-- C3 amended: markers generated by two `submit` calls in the same
session differ whenever the microsecond clock readings of the two calls
differ (the decimal token embedded in the marker is injective); with
equal readings the markers coincide. -/
theorem markers_differ_of_distinct_clock (s s1 s2 : ShellSh)
    (l1 l2 : String) (t1 t2 : Nat) (h12 : t1 ≠ t2)
    (h1 : typeenter s l1 t1 = .ok s1) (h2 : typeenter s1 l2 t2 = .ok s2) :
    s1.waitingMarker ≠ s2.waitingMarker ∧ mkMarker t1 ≠ mkMarker t2 := by
  have hne : mkMarker t1 ≠ mkMarker t2 := fun hc => h12 (mkMarker_injective hc)
  refine ⟨?_, hne⟩
  rw [typeenter_ok_marker s s1 l1 t1 h1, typeenter_ok_marker s1 s2 l2 t2 h2]
  intro hc
  exact hne (Option.some.inj hc)

/-- C3 witness: two submissions with distinct clock readings 1 and 2
yield distinct pending markers. -/
theorem markers_differ_of_distinct_clock_witness :
    (1 : Nat) ≠ 2 ∧
    typeenter initState "echo a" 1 = .ok c3wState1 ∧
    typeenter c3wState1 "echo b" 2 = .ok c3wState2 ∧
    c3wState1.waitingMarker ≠ c3wState2.waitingMarker :=
  ⟨by decide, rfl, rfl,
    (markers_differ_of_distinct_clock initState c3wState1 c3wState2
      "echo a" "echo b" 1 2 (by decide) rfl rfl).1⟩

/-- C7 counterexample: `typeenter` unconditionally overwrites
`_waiting_marker`; on a session whose pending marker has not been
observed (the buffer is empty), a second submission replaces it —
refuting the claim that no operation discards a still-unobserved
pending marker. -/
theorem typeenter_discards_unobserved_marker :
    c7State.waitingMarker = some (mkMarker 1) ∧
    markerFound (mkMarker 1) (String.join c7State.outputBuffer) = false ∧
    typeenter c7State "echo b" 2 = .ok c7State2 ∧
    c7State2.waitingMarker = some (mkMarker 2) ∧
    mkMarker 2 ≠ mkMarker 1 :=
  ⟨rfl, by decide, rfl, rfl, by decide⟩

/-- C7 amended: `wait` and `is_alive` clear `pendingMarker` only upon
observing its anchored occurrence in the buffer (and a timed-out `wait`
leaves it set), but `submit` (`typeenter`) unconditionally overwrites
the slot with the freshly generated marker, discarding any
still-unobserved pending marker. -/
theorem pendingMarker_clearing_discipline (s : ShellSh) (m l : String)
    (t : Nat) (sec : Option Nat) (st : Nat) (ck : Nat → Nat)
    (bA : Nat → List String) (fuel : Nat)
    (hr : s.running = true) (hm : s.waitingMarker = some m) :
    ((is_alive s).2.waitingMarker = none ↔
      markerFound m (String.join s.outputBuffer) = true) ∧
    (∀ s2 j, wait s sec st ck bA fuel = .ok (s2, .completed j) →
      markerFound m (String.join (bA j)) = true ∧ s2.waitingMarker = none) ∧
    (∀ s2 j, wait s sec st ck bA fuel = .ok (s2, .timeout j) →
      s2.waitingMarker = some m) ∧
    (∀ s2, typeenter s l t = .ok s2 →
      s2.waitingMarker = some (mkMarker t)) := by
  refine ⟨?_, ?_, ?_, fun s2 h => typeenter_ok_marker s s2 l t h⟩
  · cases hmf : markerFound m (String.join s.outputBuffer) with
    | true => simp [is_alive, hr, hm, hmf]
    | false => simp [is_alive, hr, hm, hmf]
  · intro s2 j h
    obtain ⟨hs2, m2, hm2, hloop⟩ :=
      wait_completed_inv s s2 sec st ck bA fuel j h
    have hmm : m2 = m := by rw [hm] at hm2; exact (Option.some.inj hm2).symm
    subst hmm
    subst hs2
    exact ⟨(waitLoop_found m2 sec st ck bA fuel 0 j hloop).1, rfl⟩
  · intro s2 j h
    obtain ⟨hs2, _⟩ := wait_timeout_inv s s2 sec st ck bA fuel j h
    subst hs2
    exact hm

/-- C7 witness: on a running session with a pending marker and an empty
buffer, `is_alive` leaves the marker pending (the iff instantiated), and
a `typeenter` overwrites it. -/
theorem pendingMarker_clearing_discipline_witness :
    c7wState.running = true ∧ c7wState.waitingMarker = some (mkMarker 4) ∧
    ((is_alive c7wState).2.waitingMarker = none ↔
      markerFound (mkMarker 4) (String.join c7wState.outputBuffer) = true) :=
  ⟨rfl, rfl, (pendingMarker_clearing_discipline c7wState (mkMarker 4)
    "echo x" 6 none 0 (fun _ => 0) (fun _ => []) 0 rfl rfl).1⟩

/-- C8 counterexample: the first `close()` succeeds and marks the
session closed, but a second `close()` raises `OSError` from
`os.close` on the already-closed master descriptor — refuting the claim
that a second `close()` does not fault. -/
theorem second_close_faults :
    (close initState).2 = none ∧
    (close initState).1.running = false ∧
    (close (close initState).1).2 = some ShellError.osError :=
  ⟨rfl, rfl, rfl⟩

/-- C8 amended: on a session whose master descriptor is open, `close()`
never faults and transitions the session to Closed (`running = false`,
descriptor released); a second `close()` raises `OSError` (from
`os.close` on the closed descriptor) although the session remains
Closed. -/
theorem close_succeeds_once_then_faults (s : ShellSh)
    (h : s.masterOpen = true) :
    (close s).2 = none ∧
    (close s).1.running = false ∧
    (close s).1.masterOpen = false ∧
    (close (close s).1).2 = some ShellError.osError ∧
    (close (close s).1).1.running = false := by
  simp [close, h]

/-- C8 witness: a fresh session closed twice — the first close is clean,
the second faults. -/
theorem close_succeeds_once_then_faults_witness :
    initState.masterOpen = true ∧
    (close initState).2 = none ∧
    (close (close initState).1).2 = some ShellError.osError :=
  ⟨rfl, (close_succeeds_once_then_faults initState rfl).1,
    (close_succeeds_once_then_faults initState rfl).2.2.2.1⟩
